import Mathlib

/-!
Shallow embedding of the gesture classification and binding dispatch engine of
Daemon-Swipe (src/main.cpp). C++ doubles are modelled as exact rationals (ℚ),
`std::string` as `String`, the `std::map<std::pair<int,std::string>, std::string>`
binding table as a function from keys to optional action strings, and the
observable effects of the event loop (console reports and `std::system` calls)
as an explicit list of `Report` values returned by each step.
-/

namespace DaemonSwipe

/-- Swipe session state (struct SwipeGesture, main.cpp lines 80-85). -/
structure SwipeGesture where
  dx : ℚ
  dy : ℚ
  active : Bool
  fingers : Int
deriving DecidableEq

/-- Pinch session state (struct PinchGesture, main.cpp lines 87-93). -/
structure PinchGesture where
  scale : ℚ
  dx : ℚ
  dy : ℚ
  fingers : Int
  active : Bool
deriving DecidableEq

/-- Binding keys are (finger count, direction string) pairs, mirroring
`std::pair<int, std::string>` (main.cpp line 99). -/
abbrev BindingKey := Int × String

/-- The binding table `gesture_bindings` (main.cpp line 99), modelled as the
partial map it denotes: absent keys are `none`. -/
abbrev BindingTable := BindingKey → Option String

/-- The initially empty `gesture_bindings` map. -/
def emptyTable : BindingTable := fun _ => none

/-- Pure read of the binding table (`gesture_bindings.find`, main.cpp line 242). -/
def lookupBinding (m : BindingTable) (k : BindingKey) : Option String := m k

/-- The swipe classifier (main.cpp lines 226-237): threshold 50, horizontal
branch only when `|dx| > |dy|`; the empty string encodes "no verdict". -/
def classifySwipe (dx dy : ℚ) : String :=
  if |dx| > |dy| then
    if dx > 50 then ("RIGHT") else if dx < -50 then ("LEFT") else ("")
  else
    if dy > 50 then ("DOWN") else if dy < -50 then ("UP") else ("")

/-- The pinch classifier (main.cpp lines 313-318): thresholds 1.1 and 0.9. -/
def classifyPinch (scale : ℚ) : String :=
  if scale > 11/10 then ("zoom-in") else if scale < 9/10 then ("zoom-out") else ("neutral")

/-- Observable effects of event handling: the "Detected ... swipe" report, a
`std::system` invocation, the "No binding found" report, and the pinch verdict
report (one of the three messages at main.cpp lines 313-318). -/
inductive Report where
  | swipeDetected (fingers : Int) (direction : String)
  | runCommand (cmd : String)
  | noBinding
  | pinchVerdict (v : String)
deriving DecidableEq

/-- The dispatch block inside the swipe-End handler (main.cpp lines 242-249):
look the key up; on a hit run the bound command once (outcome discarded,
`(void)ret`), on a miss report that no binding exists. -/
def dispatch (m : BindingTable) (key : BindingKey) : List Report :=
  match m key with
  | some cmd => [Report.runCommand cmd]
  | none => [Report.noBinding]

/-- The combo-selection mutation of `gesture_bindings` (main.cpp lines 428-435):
selecting "None" erases the key, any other command is inserted/overwritten. -/
def setBinding (m : BindingTable) (key : BindingKey) (actionId : String) : BindingTable :=
  if actionId = ("None") then (fun k => if k = key then none else m k)
  else (fun k => if k = key then some actionId else m k)

/-- The stale-binding prune loop (main.cpp lines 401-407): every entry whose
command is no longer in the catalog is erased. -/
def pruneStaleBindings (catalog : List String) (m : BindingTable) : BindingTable :=
  fun k =>
    match m k with
    | some a => if a ∈ catalog then some a else none
    | none => none

/-- The hard-coded command list `predefined_commands` (main.cpp lines 384-395);
its first entry "None" is the sentinel. -/
def predefined_commands : List String :=
  [("None"),
   ("notify-send \x27Gesture Triggered\x27"),
   ("gnome-terminal"),
   ("google-chrome"),
   ("playerctl play-pause"),
   ("playerctl next"),
   ("playerctl previous")]

/-- The Add-button handler (main.cpp lines 372-380): push the entered command
onto `user_commands` iff it is non-empty and not already in `user_commands`. -/
def addCustomAction (userCommands : List String) (cmd : String) : List String :=
  if cmd ≠ ("") ∧ cmd ∉ userCommands then userCommands ++ [cmd] else userCommands

/-- The combined catalog `all_commands` (main.cpp lines 397-398): the
predefined commands followed by the user commands. -/
def all_commands (userCommands : List String) : List String :=
  predefined_commands ++ userCommands

/-- The direction labels offered by the configuration surface
(main.cpp line 413). -/
def directions : List String := [("LEFT"), ("RIGHT"), ("UP"), ("DOWN")]

/-- A key is one of the 8 keys the configuration surface can produce:
fingers in {3,4} (main.cpp line 415) and a direction label (line 413). -/
def validKey (k : BindingKey) : Bool :=
  (k.1 == 3 || k.1 == 4) && directions.contains k.2

/-- Well-formedness of the binding table: every present key is one of the 8
configurable keys. -/
def tableWF (m : BindingTable) : Prop :=
  ∀ k a, m k = some a → validKey k = true

/-- Gesture events consumed by the event loop (the abstract form of the
libinput gesture events handled in the switch at main.cpp lines 193-348). -/
inductive GestureEvent where
  | swipeBegin (fingers : Int)
  | swipeUpdate (dx dy : ℚ)
  | swipeEnd
  | pinchBegin (fingers : Int)
  | pinchUpdate (scale dx dy : ℚ)
  | pinchEnd
  | holdBegin (fingers : Int)
  | holdEnd (fingers : Int)

/-- All mutable engine state touched by the event loop: the two gesture
sessions, the binding table and the user command list. -/
structure EngineState where
  swipe : SwipeGesture
  pinch : PinchGesture
  bindings : BindingTable
  userCommands : List String

/-- The state at process start: both sessions inactive with zeroed
accumulators (pinch scale 1.0), empty binding table, no user commands. -/
def initialState : EngineState :=
  { swipe := { dx := 0, dy := 0, active := false, fingers := 0 },
    pinch := { scale := 1, dx := 0, dy := 0, fingers := 0, active := false },
    bindings := emptyTable,
    userCommands := [] }

/-- One step of the event loop's switch statement (main.cpp lines 193-348):
the updated state together with the ordered list of observable effects.
Note that the Update handlers (lines 208-217 and 291-303) mutate the
accumulators unconditionally — the source has no `active` guard — and that
the hold handlers (lines 323-340) touch no state at all. -/
def step : GestureEvent → EngineState → EngineState × List Report
  | GestureEvent.swipeBegin f, s =>
      ({ s with swipe := { dx := 0, dy := 0, active := true, fingers := f } }, [])
  | GestureEvent.swipeUpdate ddx ddy, s =>
      ({ s with swipe := { s.swipe with dx := s.swipe.dx + ddx, dy := s.swipe.dy + ddy } }, [])
  | GestureEvent.swipeEnd, s =>
      let s' := { s with swipe := { s.swipe with active := false } }
      let dir := classifySwipe s.swipe.dx s.swipe.dy
      if dir = ("") then (s', [])
      else (s', Report.swipeDetected s.swipe.fingers dir :: dispatch s.bindings (s.swipe.fingers, dir))
  | GestureEvent.pinchBegin f, s =>
      ({ s with pinch := { scale := 1, dx := 0, dy := 0, fingers := f, active := true } }, [])
  | GestureEvent.pinchUpdate sc ddx ddy, s =>
      ({ s with pinch :=
          { s.pinch with
              scale := s.pinch.scale * sc
              dx := s.pinch.dx + ddx
              dy := s.pinch.dy + ddy } }, [])
  | GestureEvent.pinchEnd, s =>
      ({ s with pinch := { s.pinch with active := false } },
       [Report.pinchVerdict (classifyPinch s.pinch.scale)])
  | GestureEvent.holdBegin _, s => (s, [])
  | GestureEvent.holdEnd _, s => (s, [])

/-- Run a list of events in order, concatenating their reports. -/
def runEvents : List GestureEvent → EngineState → EngineState × List Report
  | [], s => (s, [])
  | e :: es, s =>
      ((runEvents es (step e s).1).1, (step e s).2 ++ (runEvents es (step e s).1).2)

/-- A one-entry binding table used as a concrete evaluation point. -/
def witnessTable : BindingTable :=
  fun k => if k = (3, ("RIGHT")) then some ("gnome-terminal") else none

/-- C1: at swipe End, with final accumulated (dx, dy): when `|dx| > |dy|` the
verdict is RIGHT if dx > 50, LEFT if dx < -50, and no verdict otherwise; when
`|dx| ≤ |dy|` (including the tie) the verdict is DOWN if dy > 50, UP if
dy < -50, and no verdict otherwise; in particular (51,0) gives RIGHT, (50,0)
gives no verdict and (60,60) gives DOWN. -/
theorem C1_swipe_classification (dx dy : ℚ) :
    (|dx| > |dy| →
      (dx > 50 → classifySwipe dx dy = ("RIGHT")) ∧
      (dx < -50 → classifySwipe dx dy = ("LEFT")) ∧
      (-50 ≤ dx → dx ≤ 50 → classifySwipe dx dy = (""))) ∧
    (|dx| ≤ |dy| →
      (dy > 50 → classifySwipe dx dy = ("DOWN")) ∧
      (dy < -50 → classifySwipe dx dy = ("UP")) ∧
      (-50 ≤ dy → dy ≤ 50 → classifySwipe dx dy = (""))) ∧
    classifySwipe 51 0 = ("RIGHT") ∧ classifySwipe 50 0 = ("") ∧
    classifySwipe 60 60 = ("DOWN") := by
  refine ⟨fun h1 => ⟨fun h2 => ?_, fun h2 => ?_, fun ha hb => ?_⟩,
          fun h1 => ⟨fun h2 => ?_, fun h2 => ?_, fun ha hb => ?_⟩,
          by decide, by decide, by decide⟩
  · simp [classifySwipe, h1, h2]
  · simp [classifySwipe, h1, h2, show ¬(50 < dx) from not_lt.mpr (by linarith)]
  · simp [classifySwipe, h1, not_lt.mpr hb, not_lt.mpr ha]
  · simp [classifySwipe, not_lt.mpr h1, h2]
  · simp [classifySwipe, not_lt.mpr h1, h2, show ¬(50 < dy) from not_lt.mpr (by linarith)]
  · simp [classifySwipe, not_lt.mpr h1, not_lt.mpr hb, not_lt.mpr ha]

/-- Witness for C1: (dx, dy) = (60, 10) satisfies the horizontal-dominant
hypotheses and classifies as RIGHT. -/
theorem C1_witness :
    |(60 : ℚ)| > |(10 : ℚ)| ∧ (60 : ℚ) > 50 ∧ classifySwipe 60 10 = ("RIGHT") :=
  ⟨by decide, by decide, ((C1_swipe_classification 60 10).1 (by decide)).1 (by decide)⟩

/-- C3: immediately after the prune loop runs, every key either has no
binding or is bound to an action that is present in the current catalog. -/
theorem C3_prune_consistency (m : BindingTable) (catalog : List String)
    (k : BindingKey) (a : String)
    (h : lookupBinding (pruneStaleBindings catalog m) k = some a) : a ∈ catalog := by
  unfold lookupBinding pruneStaleBindings at h
  cases hm : m k with
  | none => rw [hm] at h; exact absurd h (by simp)
  | some b =>
      rw [hm] at h
      by_cases hb : b ∈ catalog
      · simp only [if_pos hb, Option.some.injEq] at h
        exact h ▸ hb
      · simp [if_neg hb] at h

/-- Witness for C3: pruning a one-entry table against a catalog containing its
action leaves the entry, whose action is in the catalog. -/
theorem C3_witness :
    lookupBinding (pruneStaleBindings [("None"), ("gnome-terminal")] witnessTable)
        (3, ("RIGHT")) = some ("gnome-terminal") ∧
    ("gnome-terminal") ∈ [("None"), ("gnome-terminal")] :=
  ⟨by decide,
   C3_prune_consistency witnessTable [("None"), ("gnome-terminal")] (3, ("RIGHT"))
     ("gnome-terminal") (by decide)⟩

/-- C5: at pinch End the verdict is zoom-in when the accumulated scale exceeds
1.1, zoom-out below 0.9, neutral otherwise; exactly one verdict report is
always produced, and a pinch End never runs a command and never performs a
binding lookup (no no-binding report); boundary products 1.2·1, 0.5·1.6 and 1
classify as zoom-in, zoom-out and neutral. -/
theorem C5_pinch_classification (s : EngineState) (sc : ℚ) :
    (sc > 11/10 → classifyPinch sc = ("zoom-in")) ∧
    (sc < 9/10 → classifyPinch sc = ("zoom-out")) ∧
    (9/10 ≤ sc → sc ≤ 11/10 → classifyPinch sc = ("neutral")) ∧
    (step GestureEvent.pinchEnd s).2 = [Report.pinchVerdict (classifyPinch s.pinch.scale)] ∧
    (∀ c, Report.runCommand c ∉ (step GestureEvent.pinchEnd s).2) ∧
    Report.noBinding ∉ (step GestureEvent.pinchEnd s).2 ∧
    classifyPinch (12/10 * 1) = ("zoom-in") ∧
    classifyPinch (1/2 * (16/10)) = ("zoom-out") ∧
    classifyPinch 1 = ("neutral") := by
  refine ⟨fun h => ?_, fun h => ?_, fun ha hb => ?_, rfl, fun c => ?_, ?_,
          by norm_num [classifyPinch], by norm_num [classifyPinch], by norm_num [classifyPinch]⟩
  · simp [classifyPinch, h]
  · simp [classifyPinch, h, show ¬(11/10 < sc) from not_lt.mpr (by linarith)]
  · simp [classifyPinch, not_lt.mpr hb, not_lt.mpr ha]
  · simp [step]
  · simp [step]

/-- Witness for C5: scale 6/5 exceeds 11/10 and classifies as zoom-in, and the
pinch End step from the initial state reports no command run and no binding
lookup. -/
theorem C5_witness :
    ((6 : ℚ)/5 > 11/10 ∧ classifyPinch (6/5) = ("zoom-in")) ∧
    Report.runCommand ("gnome-terminal") ∉ (step GestureEvent.pinchEnd initialState).2 ∧
    Report.noBinding ∉ (step GestureEvent.pinchEnd initialState).2 :=
  ⟨⟨by norm_num, (C5_pinch_classification initialState (6/5)).1 (by norm_num)⟩,
   (C5_pinch_classification initialState (6/5)).2.2.2.2.1 ("gnome-terminal"),
   (C5_pinch_classification initialState (6/5)).2.2.2.2.2.1⟩

/-- C6: dispatching a key looks it up in the binding table: a present key runs
exactly the bound command once, an absent key yields exactly the no-binding
report; the swipe End step never changes the binding table or the user
command list. -/
theorem C6_dispatch_behavior (m : BindingTable) (key : BindingKey) (s : EngineState) :
    (∀ a, m key = some a → dispatch m key = [Report.runCommand a]) ∧
    (m key = none → dispatch m key = [Report.noBinding]) ∧
    (step GestureEvent.swipeEnd s).1.bindings = s.bindings ∧
    (step GestureEvent.swipeEnd s).1.userCommands = s.userCommands := by
  refine ⟨fun a ha => ?_, fun ha => ?_, ?_, ?_⟩
  · unfold dispatch; rw [ha]
  · unfold dispatch; rw [ha]
  · unfold step; dsimp only; split <;> rfl
  · unfold step; dsimp only; split <;> rfl

/-- Witness for C6: a bound key runs its command, the empty table misses. -/
theorem C6_witness :
    (witnessTable (3, ("RIGHT")) = some ("gnome-terminal") ∧
      dispatch witnessTable (3, ("RIGHT")) = [Report.runCommand ("gnome-terminal")]) ∧
    (emptyTable (3, ("RIGHT")) = none ∧
      dispatch emptyTable (3, ("RIGHT")) = [Report.noBinding]) :=
  ⟨⟨by decide,
    (C6_dispatch_behavior witnessTable (3, ("RIGHT")) initialState).1 ("gnome-terminal") (by decide)⟩,
   ⟨rfl, (C6_dispatch_behavior emptyTable (3, ("RIGHT")) initialState).2.1 rfl⟩⟩

/-- C7: setting a non-sentinel binding twice equals setting it once, and
removing (binding the sentinel "None") a key that is absent leaves the table
unchanged. -/
theorem C7_setBinding_idempotent (m : BindingTable) (K : BindingKey) (A : String) :
    (A ≠ ("None") → setBinding (setBinding m K A) K A = setBinding m K A) ∧
    (m K = none → setBinding m K ("None") = m) := by
  constructor
  · intro hA
    funext k
    simp only [setBinding, if_neg hA]
    by_cases hk : k = K <;> simp [hk]
  · intro hK
    funext k
    simp only [setBinding, if_pos rfl]
    by_cases hk : k = K <;> simp [hk, hK.symm]

/-- Witness for C7: binding (3,RIGHT) to "gnome-terminal" twice on the empty
table equals binding it once, and unbinding the absent key (3,RIGHT) on the
empty table is a no-op. -/
theorem C7_witness :
    (("gnome-terminal") ≠ ("None") ∧
      setBinding (setBinding emptyTable (3, ("RIGHT")) ("gnome-terminal")) (3, ("RIGHT"))
          ("gnome-terminal")
        = setBinding emptyTable (3, ("RIGHT")) ("gnome-terminal")) ∧
    (emptyTable (3, ("RIGHT")) = none ∧
      setBinding emptyTable (3, ("RIGHT")) ("None") = emptyTable) :=
  ⟨⟨by decide,
    (C7_setBinding_idempotent emptyTable (3, ("RIGHT")) ("gnome-terminal")).1 (by decide)⟩,
   ⟨rfl, (C7_setBinding_idempotent emptyTable (3, ("RIGHT")) ("gnome-terminal")).2 rfl⟩⟩

/-- C2 counterexample: the Update handlers have no `active` guard
(main.cpp lines 208-217 and 291-303), so a swipe Update of (5,0) received in
the initial state — where both sessions are inactive — changes accumulatedDx
from 0 to 5, and a pinch Update with scale 2 changes accumulatedScale from
1 to 2, refuting the claim that idle updates leave the session state
unchanged. -/
theorem C2_counterexample :
    initialState.swipe.active = false ∧
    (step (GestureEvent.swipeUpdate 5 0) initialState).1.swipe.dx ≠ initialState.swipe.dx ∧
    initialState.pinch.active = false ∧
    (step (GestureEvent.pinchUpdate 2 0 0) initialState).1.pinch.scale ≠
      initialState.pinch.scale := by
  refine ⟨rfl, ?_, rfl, ?_⟩ <;> simp [step, initialState]

/-- C2 amended: an Update received while the session is inactive is processed
exactly as while active — it adds the deltas to (multiplies the scale into)
the accumulators — and leaves the active flag, the other session, the binding
table and the user commands untouched. -/
theorem C2_idle_updates_still_accumulate (s : EngineState) (dx dy sc : ℚ)
    (hs : s.swipe.active = false) (hp : s.pinch.active = false) :
    ((step (GestureEvent.swipeUpdate dx dy) s).1 =
      { s with swipe := { s.swipe with dx := s.swipe.dx + dx, dy := s.swipe.dy + dy } }) ∧
    ((step (GestureEvent.pinchUpdate sc dx dy) s).1 =
      { s with pinch :=
          { s.pinch with
              scale := s.pinch.scale * sc
              dx := s.pinch.dx + dx
              dy := s.pinch.dy + dy } }) ∧
    (step (GestureEvent.swipeUpdate dx dy) s).1.swipe.active = false ∧
    (step (GestureEvent.pinchUpdate sc dx dy) s).1.pinch.active = false :=
  ⟨rfl, rfl, hs, hp⟩

/-- Witness for C2 amended: in the initial state (both sessions inactive) a
swipe Update of (5,0) accumulates into dx. -/
theorem C2_witness :
    initialState.swipe.active = false ∧ initialState.pinch.active = false ∧
    (step (GestureEvent.swipeUpdate 5 0) initialState).1 =
      { initialState with swipe :=
          { initialState.swipe with
              dx := initialState.swipe.dx + 5
              dy := initialState.swipe.dy + 0 } } :=
  ⟨rfl, rfl, (C2_idle_updates_still_accumulate initialState 5 0 1 rfl rfl).1⟩

/-- C4 counterexample: the Add button only checks `user_commands` for
duplicates (main.cpp line 375), not the predefined list, so adding the
built-in command "gnome-terminal" as a custom action is accepted and the
combined catalog then contains it twice — refuting both the claimed
"not already present anywhere in the catalog" guard and the claimed global
deduplication. -/
theorem C4_counterexample :
    ("gnome-terminal") ∈ predefined_commands ∧
    addCustomAction [] ("gnome-terminal") = [("gnome-terminal")] ∧
    (all_commands (addCustomAction [] ("gnome-terminal"))).count ("gnome-terminal") = 2 := by
  refine ⟨by decide, by decide, by decide⟩

/-- C4 amended: addCustomAction appends iff the string is non-empty and not
already present in the user section only (exact string equality); otherwise
it is a silent no-op; consequently the user section itself stays duplicate
free, but coincidence with a predefined command is not checked. -/
theorem C4_addCustomAction_user_section (u : List String) (cmd : String) :
    (cmd ≠ ("") → cmd ∉ u → addCustomAction u cmd = u ++ [cmd]) ∧
    (cmd = ("") → addCustomAction u cmd = u) ∧
    (cmd ∈ u → addCustomAction u cmd = u) ∧
    (u.Nodup → (addCustomAction u cmd).Nodup) := by
  refine ⟨fun h1 h2 => ?_, fun h => ?_, fun h => ?_, fun h => ?_⟩
  · simp [addCustomAction, h1, h2]
  · simp [addCustomAction, h]
  · simp [addCustomAction, h]
  · unfold addCustomAction
    split_ifs with hc
    · simp [List.nodup_append, h, hc.2]
    · exact h

/-- Witness for C4 amended: "lock-screen" is appended to an empty user
section, and adding it again is a no-op. -/
theorem C4_witness :
    (("lock-screen") ≠ ("") ∧ ("lock-screen") ∉ ([] : List String) ∧
      addCustomAction [] ("lock-screen") = [("lock-screen")]) ∧
    (("lock-screen") ∈ [("lock-screen")] ∧
      addCustomAction [("lock-screen")] ("lock-screen") = [("lock-screen")]) :=
  ⟨⟨by decide, by decide,
    (C4_addCustomAction_user_section [] ("lock-screen")).1 (by decide) (by decide)⟩,
   ⟨by decide,
    (C4_addCustomAction_user_section [("lock-screen")] ("lock-screen")).2.2.1 (by decide)⟩⟩

/-- Helper: running an appended event list is running the two parts in
sequence, concatenating reports. -/
theorem runEvents_append (xs ys : List GestureEvent) (s : EngineState) :
    runEvents (xs ++ ys) s =
      ((runEvents ys (runEvents xs s).1).1,
        (runEvents xs s).2 ++ (runEvents ys (runEvents xs s).1).2) := by
  induction xs generalizing s with
  | nil => simp [runEvents]
  | cons e t ih => simp [runEvents, ih]

/-- Helper: a list of swipe Updates adds the component sums to the
accumulators and reports nothing. -/
theorem runEvents_swipeUpdates (L : List (ℚ × ℚ)) (s : EngineState) :
    runEvents (L.map fun p => GestureEvent.swipeUpdate p.1 p.2) s =
      ({ s with swipe :=
          { s.swipe with
              dx := s.swipe.dx + (L.map Prod.fst).sum
              dy := s.swipe.dy + (L.map Prod.snd).sum } }, []) := by
  induction L generalizing s with
  | nil => simp [runEvents]
  | cons p t ih =>
      simp only [List.map_cons, runEvents, step, List.sum_cons]
      rw [ih]
      simp [add_assoc]

/-- Helper: a list of pinch Updates multiplies the scale factors into the
scale accumulator, adds the delta sums, and reports nothing. -/
theorem runEvents_pinchUpdates (M : List (ℚ × ℚ × ℚ)) (s : EngineState) :
    runEvents (M.map fun t => GestureEvent.pinchUpdate t.1 t.2.1 t.2.2) s =
      ({ s with pinch :=
          { s.pinch with
              scale := s.pinch.scale * (M.map fun t => t.1).prod
              dx := s.pinch.dx + (M.map fun t => t.2.1).sum
              dy := s.pinch.dy + (M.map fun t => t.2.2).sum } }, []) := by
  induction M generalizing s with
  | nil => simp [runEvents]
  | cons p t ih =>
      simp only [List.map_cons, runEvents, step, List.sum_cons, List.prod_cons]
      rw [ih]
      simp [mul_assoc, add_assoc]

/-- C8: a swipe session fed any list of Updates ends in exactly the same
state and produces exactly the same reports (hence the same verdict and the
same dispatch) as the session fed the single Update carrying the component
sums; and a pinch session's final accumulated scale is the product of the
per-update scale factors however the factor is split. -/
theorem C8_accumulation_assoc (s : EngineState) (f : Int) (L : List (ℚ × ℚ))
    (M : List (ℚ × ℚ × ℚ)) :
    runEvents (GestureEvent.swipeBegin f ::
        ((L.map fun p => GestureEvent.swipeUpdate p.1 p.2) ++ [GestureEvent.swipeEnd])) s =
      runEvents [GestureEvent.swipeBegin f,
        GestureEvent.swipeUpdate (L.map Prod.fst).sum (L.map Prod.snd).sum,
        GestureEvent.swipeEnd] s ∧
    (runEvents (GestureEvent.pinchBegin f ::
        (M.map fun t => GestureEvent.pinchUpdate t.1 t.2.1 t.2.2)) s).1.pinch.scale =
      (M.map fun t => t.1).prod := by
  constructor
  · simp only [runEvents]
    rw [runEvents_append, runEvents_swipeUpdates]
    simp [runEvents, step]
  · simp only [runEvents]
    rw [runEvents_pinchUpdates]
    simp [step]

/-- Witness for C8: the end-to-end scenario Begin(3) → Update(40,5) →
Update(40,5) → End equals Begin(3) → Update(80,10) → End. -/
theorem C8_witness :
    runEvents (GestureEvent.swipeBegin 3 ::
        (([((40 : ℚ), (5 : ℚ)), (40, 5)].map fun p => GestureEvent.swipeUpdate p.1 p.2) ++
          [GestureEvent.swipeEnd])) initialState =
      runEvents [GestureEvent.swipeBegin 3,
        GestureEvent.swipeUpdate ([((40 : ℚ), (5 : ℚ)), (40, 5)].map Prod.fst).sum
          ([((40 : ℚ), (5 : ℚ)), (40, 5)].map Prod.snd).sum,
        GestureEvent.swipeEnd] initialState :=
  (C8_accumulation_assoc initialState 3 [((40 : ℚ), (5 : ℚ)), (40, 5)] []).1

/-- C9 counterexample: the hold handlers (main.cpp lines 323-340) keep no
session state at all — the source defines no hold struct and no hold active
flag — so processing a hold Begin in the initial state leaves the entire
mutable engine state bit-for-bit identical (and produces no report): nothing
is toggled, contradicting the claim that Begin/End toggle a hold active
flag. -/
theorem C9_counterexample :
    step (GestureEvent.holdBegin 2) initialState = (initialState, []) ∧
    step (GestureEvent.holdEnd 2) initialState = (initialState, []) ∧
    (step (GestureEvent.holdBegin 2) initialState).1.swipe.active = false ∧
    (step (GestureEvent.holdBegin 2) initialState).1.pinch.active = false :=
  ⟨rfl, rfl, rfl, rfl⟩

/-- C9 amended: hold Begin and hold End change no program state whatsoever
(the code keeps no hold session state, so there is no active flag to toggle)
and produce no report: no accumulator changes, no verdict, no binding lookup
and no command execution ever results from a hold event. -/
theorem C9_hold_no_state_change (s : EngineState) (f : Int) :
    step (GestureEvent.holdBegin f) s = (s, []) ∧
    step (GestureEvent.holdEnd f) s = (s, []) :=
  ⟨rfl, rfl⟩

/-- Witness for C9 amended: a 3-finger hold Begin/End pair in the initial
state is a complete no-op. -/
theorem C9_witness :
    step (GestureEvent.holdBegin 3) initialState = (initialState, []) ∧
    step (GestureEvent.holdEnd 3) initialState = (initialState, []) :=
  C9_hold_no_state_change initialState 3

/-- C10: the empty initial table only holds valid keys (vacuously); the
configuration surface's mutation (which only ever passes fingers 3 or 4 and
one of the four direction labels) and the prune loop both preserve the
invariant that every present key has fingers in {3,4} and a direction in
{LEFT,RIGHT,UP,DOWN}; and under that invariant a dispatch for any key outside
those 8 is a miss. -/
theorem C10_binding_key_invariant :
    tableWF emptyTable ∧
    (∀ m k a, tableWF m → validKey k = true → tableWF (setBinding m k a)) ∧
    (∀ m catalog, tableWF m → tableWF (pruneStaleBindings catalog m)) ∧
    (∀ m k, tableWF m → validKey k = false → dispatch m k = [Report.noBinding]) := by
  refine ⟨fun k a h => ?_, fun m k a hwf hk k' a' h' => ?_,
          fun m catalog hwf k a h => ?_, fun m k hwf hk => ?_⟩
  · exact absurd h (by simp [emptyTable])
  · by_cases hA : a = ("None") <;> by_cases hk' : k' = k <;>
      simp [setBinding, hA, hk'] at h'
    · exact hwf k' a' h'
    · rw [hk']; exact hk
    · exact hwf k' a' h'
  · unfold pruneStaleBindings at h
    cases hm : m k with
    | none => rw [hm] at h; exact absurd h (by simp)
    | some b => exact hwf k b hm
  · unfold dispatch
    cases hm : m k with
    | none => rfl
    | some b =>
        have hv := hwf k b hm
        rw [hk] at hv
        exact absurd hv (by decide)

/-- Witness for C10: the key (5, RIGHT) is outside the 8 configurable keys,
and dispatching it on the (well-formed) empty table misses. -/
theorem C10_witness :
    validKey (5, ("RIGHT")) = false ∧
    dispatch emptyTable (5, ("RIGHT")) = [Report.noBinding] :=
  ⟨by decide,
   C10_binding_key_invariant.2.2.2 emptyTable (5, ("RIGHT"))
     (fun k a h => absurd h (by simp [emptyTable])) (by decide)⟩

end DaemonSwipe
